import Mathlib

/-!
Shallow embedding of the request execution core of `steamy-py`
(`src/steamy_py/client.py`: class `Client` with `connect`, `close`,
`_rate_limit` and `request`), together with theorems settling the
claims about it.

Time quantities (delays, timestamps) are modelled as rationals.  The
idealized clock assumption: `asyncio.sleep d` suspends for exactly `d`
time units, and `time.time()` read right after a suspension returns the
pre-suspension reading plus the suspension length.  The transport
(`aiohttp`) is modelled as an oracle assigning to each attempt index the
outcome of that attempt's `session.request` call.
-/

namespace SteamyPy

/-- Configuration record. Modelled from the spec: the repository imports
`from .config import Settings` but `config.py` is not under `src/`; the
spec (§3 Configuration, §6) lists its fields: base timeout, maximum retry
count, base retry delay, requests-per-second ceiling, and a rate-limiting
enable flag, constructed once and read-only thereafter.  Field names
follow the attribute names used by `client.py`. -/
structure Settings where
  REQUEST_TIMEOUT : ℚ
  MAX_RETRIES : ℕ
  RETRY_DELAY : ℚ
  REQUESTS_PER_SECOND : ℚ
  RATE_LIMIT_ENABLED : Bool
  deriving DecidableEq, Repr

/-- The aiohttp `ClientSession` held in `Client._session`, reduced to what
the client code observes: whether it is closed, plus a generation number
identifying which pool-creation produced it (so "fresh pool" is statable). -/
structure SessionState where
  closed : Bool
  gen : ℕ
  deriving DecidableEq, Repr

/-- State of a `Client` instance: credentials, settings, the optional
session (`None` until first connect), and the rate-limiter timestamp
`_last_request_time` (initialized to `0.0` in `__init__`).  `nextGen` is
the bookkeeping counter for session generations. -/
structure ClientState where
  api_key : Option String
  access_token : Option String
  settings : Settings
  session : Option SessionState
  last_request_time : ℚ
  nextGen : ℕ
  deriving DecidableEq, Repr

/-- Python truthiness test used by `if not self.api_key`: an absent
credential or the empty string is falsy. -/
def strFalsy : Option String → Bool
  | none => true
  | some s => s = ""

/-- `Client.connect` (client.py lines 53-70): returns unchanged if a live
(non-closed) session exists, otherwise creates a fresh session. -/
def connect (c : ClientState) : ClientState :=
  match c.session with
  | some sess =>
      if !sess.closed then c
      else { c with session := some ⟨false, c.nextGen⟩, nextGen := c.nextGen + 1 }
  | none => { c with session := some ⟨false, c.nextGen⟩, nextGen := c.nextGen + 1 }

/-- `Client.close` (client.py lines 72-76): closes the session if one
exists and is not already closed; the (closed) session object stays in
`_session`. -/
def close (c : ClientState) : ClientState :=
  match c.session with
  | some sess =>
      if !sess.closed then { c with session := some ⟨true, sess.gen⟩ } else c
  | none => c

/-- Result of one `_rate_limit` invocation: how long the caller was
suspended (0 when no suspension) and the value of `_last_request_time`
after the call. -/
structure RateLimitResult where
  sleepTime : ℚ
  newLast : ℚ
  deriving DecidableEq, Repr

/-- `Client._rate_limit` (client.py lines 78-91).  `last` is
`_last_request_time` on entry and `now` the `time.time()` reading.  When
disabled it returns immediately without touching the timestamp.  When
enabled: if the elapsed time since the last dispatch is below
`1 / REQUESTS_PER_SECOND` it sleeps for the difference; afterwards
`time.time()` is stored, which under the idealized clock is `now`
plus the suspension length. -/
def rateLimit (s : Settings) (last now : ℚ) : RateLimitResult :=
  if !s.RATE_LIMIT_ENABLED then ⟨0, last⟩
  else
    let time_since_last := now - last
    let min_interval := 1 / s.REQUESTS_PER_SECOND
    if time_since_last < min_interval then
      let sleep_time := min_interval - time_since_last
      ⟨sleep_time, now + sleep_time⟩
    else
      ⟨0, now⟩

/-- Association-list mapping with Python-dict assignment semantics
(`params[k] = v` overwrites an existing key, else appends). -/
def dictSet : List (String × String) → String → String → List (String × String)
  | [], k, v => [(k, v)]
  | (k₀, v₀) :: rest, k, v =>
      if k₀ = k then (k, v) :: rest else (k₀, v₀) :: dictSet rest k v

/-- Python-dict lookup. -/
def dictGet : List (String × String) → String → Option String
  | [], _ => none
  | (k₀, v₀) :: rest, k => if k₀ = k then some v₀ else dictGet rest k

/-- The `ValueError` raise sites of `Client.request`, told apart by which
source line raises them. -/
inductive ValueErrorKind where
  /-- "API key is required but not provided" (line 126). -/
  | missingApiKey
  /-- "Access token is required but not provided" (line 130). -/
  | missingAccessToken
  /-- "Invalid auth_type: ..." (line 136). -/
  | invalidAuthType
  /-- "Invalid JSON response: ..." re-raised from the decode block (line 177). -/
  | invalidJson
  /-- `float()` applied to an unparseable `Retry-After` header (line 156). -/
  | floatParse
  deriving DecidableEq, Repr

/-- The errors `Client.request` can propagate: a `ValueError` (never
caught by the `except ClientError` handler), a `ClientError` raised by
the transport and re-raised after exhaustion (identified by the id the
oracle gave it), or the fallback
`ClientError("Request failed for unknown reason")` from line 192. -/
inductive ReqError where
  | valueError (kind : ValueErrorKind)
  | transportError (errId : ℕ)
  | unknownFailure
  deriving DecidableEq, Repr

/-- Authentication injection, client.py lines 124-138, acting on the
params dict (the caller's own object — the source mutates it in place and
never copies it).  On the missing-credential and invalid-auth-type paths
the raise happens before any assignment, so the mapping is untouched. -/
def authInject (api_key access_token : Option String) (auth_type : String)
    (params : List (String × String)) :
    Except ReqError (List (String × String)) :=
  if auth_type = "api_key" then
    if strFalsy api_key then .error (.valueError .missingApiKey)
    else .ok (dictSet params "key" (api_key.getD ""))
  else if auth_type = "access_token" then
    if strFalsy access_token then .error (.valueError .missingAccessToken)
    else .ok (dictSet params "access_token" (access_token.getD ""))
  else if auth_type = "none" then .ok params
  else .error (.valueError .invalidAuthType)

/-- Value of a `Retry-After` header as the client observes it through
`float(...)`: either it parses to a number or `float` raises. -/
inductive HeaderVal where
  | parseable (q : ℚ)
  | malformed
  deriving DecidableEq, Repr

/-- Outcome of one `session.request` transport attempt, as supplied by
the environment oracle: an HTTP 429 carrying an optional `Retry-After`
header; a `ClientError` (network failure, timeout, or the
`ClientResponseError` from `raise_for_status` on a non-2xx status),
identified by an id; or a 2xx response whose body either decodes to a
JSON value (abstracted to a natural number) or fails to decode. -/
inductive TransportResult where
  | throttled (retryAfter : Option HeaderVal)
  | failure (errId : ℕ)
  | success (body : Option ℕ)
  deriving DecidableEq, Repr

/-- Observable events of one `Client.request` call, in order: the single
`_rate_limit` invocation (with its suspension length, 0 when none), each
transport attempt (with the loop's `attempt` index), each 429-induced
sleep, and each exponential-backoff sleep. -/
inductive Event where
  | pace (sleepTime : ℚ)
  | transportAttempt (idx : ℕ)
  | throttleSleep (d : ℚ)
  | backoffSleep (d : ℚ)
  deriving DecidableEq, Repr

/-- The retry loop of `Client.request`, lines 144-192:
`for attempt in range(MAX_RETRIES + 1)`.  `attemptsLeft` is the number of
iterations the `range` still has (initially `MAX_RETRIES + 1`), `attempt`
the current index, `last_exception` the variable of line 144.  A 429
sleeps (server wait, or `RETRY_DELAY` when the header is absent; an
unparseable header raises `ValueError`) and `continue`s, which advances
to the next `range` element.  A `ClientError` records itself in
`last_exception` and, when `attempt < MAX_RETRIES`, sleeps
`RETRY_DELAY * 2 ^ attempt` and continues.  When the loop ends, line 192
raises `last_exception` or the generic fallback. -/
def requestLoop (s : Settings) (oracle : ℕ → TransportResult) :
    ℕ → ℕ → Option ℕ → List Event × Except ReqError ℕ
  | 0, _, last_exception =>
      ([], match last_exception with
           | some e => .error (.transportError e)
           | none => .error .unknownFailure)
  | attemptsLeft + 1, attempt, last_exception =>
      match oracle attempt with
      | .throttled h =>
          match h with
          | none =>
              let r := requestLoop s oracle attemptsLeft (attempt + 1) last_exception
              (.transportAttempt attempt :: .throttleSleep s.RETRY_DELAY :: r.1, r.2)
          | some (.parseable q) =>
              let r := requestLoop s oracle attemptsLeft (attempt + 1) last_exception
              (.transportAttempt attempt :: .throttleSleep q :: r.1, r.2)
          | some .malformed =>
              ([.transportAttempt attempt], .error (.valueError .floatParse))
      | .success body =>
          match body with
          | some b => ([.transportAttempt attempt], .ok b)
          | none => ([.transportAttempt attempt], .error (.valueError .invalidJson))
      | .failure errId =>
          if attemptsLeft = 0 then
            let r := requestLoop s oracle attemptsLeft (attempt + 1) (some errId)
            (.transportAttempt attempt :: r.1, r.2)
          else
            let r := requestLoop s oracle attemptsLeft (attempt + 1) (some errId)
            (.transportAttempt attempt ::
               .backoffSleep (s.RETRY_DELAY * 2 ^ attempt) :: r.1, r.2)

instance : DecidableEq (Except ReqError ℕ) := fun x y =>
  match x, y with
  | .ok a, .ok b =>
      if h : a = b then isTrue (by rw [h])
      else isFalse (fun hh => h (Except.ok.inj hh))
  | .error a, .error b =>
      if h : a = b then isTrue (by rw [h])
      else isFalse (fun hh => h (Except.error.inj hh))
  | .ok _, .error _ => isFalse Except.noConfusion
  | .error _, .ok _ => isFalse Except.noConfusion

/-- Result of one full `Client.request` call: the client state after the
call, the contents of the caller's own params mapping after the call
(`none` when the caller passed `params=None` — the dict built for that
case is local to the call), the event trace, and the returned value or
propagated error. -/
structure RequestResult where
  finalState : ClientState
  callerParams : Option (List (String × String))
  events : List Event
  outcome : Except ReqError ℕ
  deriving DecidableEq, Repr

/-- `Client.request`, lines 93-192.  `now` is the `time.time()` reading
when `_rate_limit` runs.  Line 117 reconnects only when `_session` is
`None` (`if not self._session:` — a closed session object is truthy).
Lines 121-122 substitute a fresh empty dict for `params=None`; otherwise
the caller's dict is used (and mutated) directly.  Authentication is
injected before `_rate_limit` runs, and `_rate_limit` runs once, before
the retry loop. -/
def request (c : ClientState) (auth_type : String)
    (params : Option (List (String × String))) (now : ℚ)
    (oracle : ℕ → TransportResult) : RequestResult :=
  let c₁ := if c.session = none then connect c else c
  let p₀ := params.getD []
  match authInject c₁.api_key c₁.access_token auth_type p₀ with
  | .error e => ⟨c₁, params, [], .error e⟩
  | .ok p₁ =>
      let rl := rateLimit c₁.settings c₁.last_request_time now
      let c₂ := { c₁ with last_request_time := rl.newLast }
      let r := requestLoop c₂.settings oracle (c₂.settings.MAX_RETRIES + 1) 0 none
      ⟨c₂, params.map (fun _ => p₁), .pace rl.sleepTime :: r.1, r.2⟩

/-- Number of transport attempts in a trace. -/
def attemptCount : List Event → ℕ
  | [] => 0
  | .transportAttempt _ :: rest => attemptCount rest + 1
  | _ :: rest => attemptCount rest

/-- Number of `_rate_limit` invocations in a trace. -/
def paceCount : List Event → ℕ
  | [] => 0
  | .pace _ :: rest => paceCount rest + 1
  | _ :: rest => paceCount rest

/-- The sleeps triggered by 429 responses, in order. -/
def throttleWaits : List Event → List ℚ
  | [] => []
  | .throttleSleep d :: rest => d :: throttleWaits rest
  | _ :: rest => throttleWaits rest

/-- The exponential-backoff sleeps, in order. -/
def backoffWaits : List Event → List ℚ
  | [] => []
  | .backoffSleep d :: rest => d :: backoffWaits rest
  | _ :: rest => backoffWaits rest

theorem dictGet_dictSet (m : List (String × String)) (k v : String) :
    dictGet (dictSet m k v) k = some v := by
  induction m with
  | nil => simp [dictSet, dictGet]
  | cons hd tl ih =>
      obtain ⟨k₀, v₀⟩ := hd
      by_cases hk : k₀ = k <;> simp [dictSet, dictGet, hk, ih]

theorem connect_api_key (c : ClientState) : (connect c).api_key = c.api_key := by
  unfold connect
  rcases hs : c.session with _ | sess <;> simp [hs] <;> split <;> simp

theorem connect_access_token (c : ClientState) :
    (connect c).access_token = c.access_token := by
  unfold connect
  rcases hs : c.session with _ | sess <;> simp [hs] <;> split <;> simp

theorem connect_settings (c : ClientState) : (connect c).settings = c.settings := by
  unfold connect
  rcases hs : c.session with _ | sess <;> simp [hs] <;> split <;> simp

theorem connect_last_request_time (c : ClientState) :
    (connect c).last_request_time = c.last_request_time := by
  unfold connect
  rcases hs : c.session with _ | sess <;> simp [hs] <;> split <;> simp

/-- Unfolding of `request` on the path where authentication injection
succeeds: the `_rate_limit` call runs once, then the retry loop. -/
theorem request_of_auth_ok (c : ClientState) (auth_type : String)
    (params : Option (List (String × String))) (now : ℚ)
    (oracle : ℕ → TransportResult) (p₁ : List (String × String))
    (hauth : authInject c.api_key c.access_token auth_type (params.getD []) = .ok p₁) :
    request c auth_type params now oracle =
      ⟨{ (if c.session = none then connect c else c) with
           last_request_time :=
             (rateLimit c.settings
               (if c.session = none then connect c else c).last_request_time now).newLast },
        params.map (fun _ => p₁),
        .pace (rateLimit c.settings
                 (if c.session = none then connect c else c).last_request_time now).sleepTime ::
          (requestLoop c.settings oracle (c.settings.MAX_RETRIES + 1) 0 none).1,
        (requestLoop c.settings oracle (c.settings.MAX_RETRIES + 1) 0 none).2⟩ := by
  by_cases hs : c.session = none <;>
    simp only [request, hs, if_true, if_false, connect_api_key, connect_access_token,
      connect_settings, connect_last_request_time, hauth]

/-- The retry loop never invokes `_rate_limit`. -/
theorem requestLoop_paceCount (s : Settings) (oracle : ℕ → TransportResult) :
    ∀ (n attempt : ℕ) (le : Option ℕ),
      paceCount (requestLoop s oracle n attempt le).1 = 0 := by
  intro n
  induction n with
  | zero => intro attempt le; simp [requestLoop, paceCount]
  | succ n ih =>
      intro attempt le
      rcases ho : oracle attempt with hdr | errId | body
      · rcases hdr with _ | hv
        · simp [requestLoop, ho, paceCount, ih]
        · rcases hv with q | _ <;> simp [requestLoop, ho, paceCount, ih]
      · by_cases hn : n = 0 <;> simp [requestLoop, ho, hn, paceCount, ih]
      · rcases body with _ | b <;> simp [requestLoop, ho, paceCount]

/-- When the transport fails on every attempt, the retry loop performs
all its iterations and ends holding the error of the final attempt. -/
theorem requestLoop_all_fail (s : Settings) (oracle : ℕ → TransportResult) (e : ℕ → ℕ)
    (hfail : ∀ k, oracle k = .failure (e k)) :
    ∀ (n attempt : ℕ) (le : Option ℕ),
      (requestLoop s oracle (n + 1) attempt le).2 =
        .error (.transportError (e (attempt + n))) ∧
      attemptCount (requestLoop s oracle (n + 1) attempt le).1 = n + 1 := by
  intro n
  induction n with
  | zero =>
      intro attempt le
      simp [requestLoop, hfail attempt, attemptCount]
  | succ n ih =>
      intro attempt le
      have hrec := ih (attempt + 1) (some (e attempt))
      constructor
      · have : attempt + 1 + n = attempt + (n + 1) := by omega
        simp [requestLoop, hfail attempt, Nat.succ_ne_zero, this] at hrec ⊢
        exact hrec.1
      · have h2 := hrec.2
        simp [requestLoop, hfail attempt, Nat.succ_ne_zero, attemptCount] at h2 ⊢
        omega

theorem authInject_api_key_missing (ak tok : Option String)
    (m : List (String × String)) (h : strFalsy ak = true) :
    authInject ak tok "api_key" m = .error (.valueError .missingApiKey) := by
  simp [authInject, h]

theorem authInject_access_token_missing (ak tok : Option String)
    (m : List (String × String)) (h : strFalsy tok = true) :
    authInject ak tok "access_token" m = .error (.valueError .missingAccessToken) := by
  simp [authInject, h]

/-- The session held after a `request` call is the one selected by the
lazy-connect check on entry (the retry loop never touches it). -/
theorem request_finalState_session (c : ClientState) (auth_type : String)
    (params : Option (List (String × String))) (now : ℚ)
    (oracle : ℕ → TransportResult) :
    (request c auth_type params now oracle).finalState.session =
      (if c.session = none then connect c else c).session := by
  by_cases hs : c.session = none
  · rcases hA : authInject (connect c).api_key (connect c).access_token auth_type
        (params.getD []) with e | p₁ <;> simp [request, hs, hA]
  · rcases hA : authInject c.api_key c.access_token auth_type
        (params.getD []) with e | p₁ <;> simp [request, hs, hA]

/-- Claim C6 (confirmed): with rate limiting enabled, one `_rate_limit`
step starting from last-dispatch timestamp `last` at current time `now`
yields a new dispatch timestamp at least `1 / REQUESTS_PER_SECOND` after
`last`; the caller is suspended for exactly the remaining difference when
the elapsed time is below the minimum interval (and not at all
otherwise), and the new timestamp is the current time plus any
suspension. -/
theorem rateLimit_min_spacing (s : Settings) (last now : ℚ)
    (hen : s.RATE_LIMIT_ENABLED = true)
    (hrps : 0 < s.REQUESTS_PER_SECOND)
    (hnow : last ≤ now) :
    1 / s.REQUESTS_PER_SECOND ≤ (rateLimit s last now).newLast - last ∧
    (rateLimit s last now).newLast = now + (rateLimit s last now).sleepTime ∧
    (now - last < 1 / s.REQUESTS_PER_SECOND →
      (rateLimit s last now).sleepTime = 1 / s.REQUESTS_PER_SECOND - (now - last)) ∧
    (1 / s.REQUESTS_PER_SECOND ≤ now - last →
      (rateLimit s last now).sleepTime = 0) := by
  unfold rateLimit
  rw [hen]
  simp only [Bool.not_true, Bool.false_eq_true, if_false]
  split
  case isTrue h =>
    refine ⟨by linarith, by ring, fun _ => rfl, fun hge => absurd h (by linarith)⟩
  case isFalse h =>
    refine ⟨by linarith, by ring, fun hlt => absurd hlt h, fun _ => rfl⟩

/-- Witness for C6: `REQUESTS_PER_SECOND = 10`, previous dispatch at 0,
second call arriving at time 1/20 sleeps 1/20 and is dispatched at
1/10. -/
theorem rateLimit_min_spacing_witness :
    1 / (10 : ℚ) ≤ (rateLimit ⟨30, 1, 2, 10, true⟩ 0 (1/20)).newLast - 0 ∧
    (rateLimit ⟨30, 1, 2, 10, true⟩ 0 (1/20)).sleepTime = 1 / 10 - (1/20 - 0) :=
  ⟨(rateLimit_min_spacing ⟨30, 1, 2, 10, true⟩ 0 (1/20) rfl (by norm_num)
      (by norm_num)).1,
   (rateLimit_min_spacing ⟨30, 1, 2, 10, true⟩ 0 (1/20) rfl (by norm_num)
      (by norm_num)).2.2.1 (by norm_num)⟩

/-- Claim C3 (confirmed): a call in api_key mode when the API key is
absent raises the missing-key `ValueError`, and a call in access_token
mode when the access token is absent raises the missing-token
`ValueError` — in either case independently of the other credential,
with an empty event trace: no `_rate_limit` invocation and zero
transport attempts. -/
theorem missing_credential_fails_fast (c : ClientState)
    (params : Option (List (String × String))) (now : ℚ)
    (oracle : ℕ → TransportResult) :
    (strFalsy c.api_key = true →
      (request c "api_key" params now oracle).outcome =
        .error (.valueError .missingApiKey) ∧
      (request c "api_key" params now oracle).events = []) ∧
    (strFalsy c.access_token = true →
      (request c "access_token" params now oracle).outcome =
        .error (.valueError .missingAccessToken) ∧
      (request c "access_token" params now oracle).events = []) := by
  constructor
  · intro hk
    have hk1 : strFalsy (connect c).api_key = true := by
      rw [connect_api_key]; exact hk
    by_cases hs : c.session = none
    · simp [request, hs, authInject_api_key_missing _ _ _ hk1]
    · simp [request, hs, authInject_api_key_missing _ _ _ hk]
  · intro ht
    have ht1 : strFalsy (connect c).access_token = true := by
      rw [connect_access_token]; exact ht
    by_cases hs : c.session = none
    · simp [request, hs, authInject_access_token_missing _ _ _ ht1]
    · simp [request, hs, authInject_access_token_missing _ _ _ ht]

/-- Witness for C3: a client that does hold an access token but no API
key, asked for an api_key-authenticated call, fails with the missing-key
error and an empty trace. -/
theorem missing_credential_fails_fast_witness :
    (request ⟨none, some "T", ⟨30, 1, 2, 10, true⟩, none, 0, 0⟩ "api_key" none 1
        (fun _ => .success (some 3))).outcome =
      .error (.valueError .missingApiKey) ∧
    (request ⟨none, some "T", ⟨30, 1, 2, 10, true⟩, none, 0, 0⟩ "api_key" none 1
        (fun _ => .success (some 3))).events = [] :=
  (missing_credential_fails_fast ⟨none, some "T", ⟨30, 1, 2, 10, true⟩, none, 0, 0⟩
    none 1 (fun _ => .success (some 3))).1 rfl

/-- Claim C9 counterexample: after `connect` then `close`, the state
reached holds a closed session object, and a `request` from that state
does not create a fresh pool — its final state still holds the same
closed session (generation 0), contradicting "reconnecting after close
creates a fresh pool" for the lazy path. -/
theorem close_then_request_keeps_closed_session :
    (close (connect ⟨some "K", some "T", ⟨30, 1, 2, 10, true⟩, none, 0, 0⟩)).session =
      some ⟨true, 0⟩ ∧
    (request (close (connect ⟨some "K", some "T", ⟨30, 1, 2, 10, true⟩, none, 0, 0⟩))
        "none" none 1 (fun _ => .success (some 3))).finalState.session =
      some ⟨true, 0⟩ := by
  constructor <;> rfl

/-- Claim C9 (amended): `request` creates a fresh pool transparently only
when no session object exists at all (the executor was never connected);
when any session object exists — live or closed, including the state
after an explicit `close()` — the call leaves it in place and does not
create a fresh pool.  At most one session is held at any time (the state
holds a single optional session). -/
theorem lazy_connect_only_when_no_session (c : ClientState) (auth_type : String)
    (params : Option (List (String × String))) (now : ℚ)
    (oracle : ℕ → TransportResult) :
    (c.session = none →
      (request c auth_type params now oracle).finalState.session =
        some ⟨false, c.nextGen⟩) ∧
    (∀ sess, c.session = some sess →
      (request c auth_type params now oracle).finalState.session = some sess) := by
  constructor
  · intro hs
    rw [request_finalState_session]
    simp [hs, connect]
  · intro sess hsess
    rw [request_finalState_session]
    simp [hsess]

/-- Witness for C9 (amended): a never-connected client gets a fresh live
session (generation 0) during `request`. -/
theorem lazy_connect_only_when_no_session_witness :
    (request ⟨some "K", some "T", ⟨30, 1, 2, 10, true⟩, none, 0, 0⟩ "none" none 1
        (fun _ => .success (some 3))).finalState.session = some ⟨false, 0⟩ :=
  (lazy_connect_only_when_no_session
      ⟨some "K", some "T", ⟨30, 1, 2, 10, true⟩, none, 0, 0⟩ "none" none 1
      (fun _ => .success (some 3))).1 rfl

/-- Claim C10 (confirmed): with a caller-supplied params mapping, the
credential is written into that very mapping under the fixed key name
("key" for api_key mode, "access_token" for token mode) — the source
mutates the caller's dict in place, so the entry remains visible to the
caller after the call returns. -/
theorem auth_mutates_caller_params (c : ClientState)
    (m : List (String × String)) (now : ℚ) (oracle : ℕ → TransportResult)
    (k t : String) :
    (c.api_key = some k → ¬k = "" →
      (request c "api_key" (some m) now oracle).callerParams =
        some (dictSet m "key" k) ∧
      dictGet (dictSet m "key" k) "key" = some k) ∧
    (c.access_token = some t → ¬t = "" →
      (request c "access_token" (some m) now oracle).callerParams =
        some (dictSet m "access_token" t) ∧
      dictGet (dictSet m "access_token" t) "access_token" = some t) := by
  constructor
  · intro hk hknz
    refine ⟨?_, dictGet_dictSet m "key" k⟩
    have hauth : authInject c.api_key c.access_token "api_key"
        ((some m).getD []) = .ok (dictSet m "key" k) := by
      simp [authInject, hk, strFalsy, hknz]
    rw [request_of_auth_ok c "api_key" (some m) now oracle _ hauth]
    rfl
  · intro ht htnz
    refine ⟨?_, dictGet_dictSet m "access_token" t⟩
    have hauth : authInject c.api_key c.access_token "access_token"
        ((some m).getD []) = .ok (dictSet m "access_token" t) := by
      simp [authInject, ht, strFalsy, htnz]
    rw [request_of_auth_ok c "access_token" (some m) now oracle _ hauth]
    rfl

/-- Witness for C10: a caller whose client holds only an API key (no
access token) passing `{"id": "7"}` with api_key mode sees
`{"id": "7", "key": "K"}` in their own mapping afterwards. -/
theorem auth_mutates_caller_params_witness :
    (request ⟨some "K", none, ⟨30, 1, 2, 10, true⟩, none, 0, 0⟩ "api_key"
        (some [("id", "7")]) 1 (fun _ => .success (some 5))).callerParams =
      some (dictSet [("id", "7")] "key" "K") ∧
    dictGet (dictSet [("id", "7")] "key" "K") "key" = some "K" :=
  (auth_mutates_caller_params ⟨some "K", none, ⟨30, 1, 2, 10, true⟩, none, 0, 0⟩
    [("id", "7")] 1 (fun _ => .success (some 5)) "K" "T").1 rfl (by decide)

/-- Claim C1 counterexample: with `MAX_RETRIES = 1` and two consecutive
throttling responses advertising `Retry-After: 2`, only two transport
attempts occur — the 429 `continue` advances the `range` loop, consuming
the retry budget — and the call ends with the generic fallback
`ClientError`, so no third attempt happens as the claim requires. -/
theorem throttle_consumes_budget_cex :
    attemptCount (request ⟨some "K", some "T", ⟨30, 1, 2, 10, true⟩, none, 0, 0⟩
        "none" none 1 (fun _ => .throttled (some (.parseable 2)))).events = 2 ∧
    (request ⟨some "K", some "T", ⟨30, 1, 2, 10, true⟩, none, 0, 0⟩
        "none" none 1 (fun _ => .throttled (some (.parseable 2)))).outcome =
      .error .unknownFailure := by
  constructor <;> rfl

/-- Claim C1 (amended): a throttling response suspends for the
server-advertised wait and loops again, but it does consume a retry
attempt: with `MAX_RETRIES = 1` and throttling responses on attempts 0
and 1, exactly two transport attempts occur (no third), each advertised
wait is slept once, and the call raises the generic fallback
`ClientError` since no transport exception was recorded. -/
theorem throttle_consumes_retry_budget (c : ClientState) (auth_type : String)
    (params : Option (List (String × String))) (now : ℚ)
    (oracle : ℕ → TransportResult) (p₁ : List (String × String)) (q₀ q₁ : ℚ)
    (hauth : authInject c.api_key c.access_token auth_type
      (params.getD []) = .ok p₁)
    (hmr : c.settings.MAX_RETRIES = 1)
    (h0 : oracle 0 = .throttled (some (.parseable q₀)))
    (h1 : oracle 1 = .throttled (some (.parseable q₁))) :
    attemptCount (request c auth_type params now oracle).events = 2 ∧
    throttleWaits (request c auth_type params now oracle).events = [q₀, q₁] ∧
    (request c auth_type params now oracle).outcome = .error .unknownFailure := by
  rw [request_of_auth_ok c auth_type params now oracle p₁ hauth, hmr]
  simp [requestLoop, h0, h1, attemptCount, throttleWaits]

/-- Witness for C1 (amended) at `Retry-After` values 2 and 2. -/
theorem throttle_consumes_retry_budget_witness :
    attemptCount (request ⟨some "T", none, ⟨30, 1, 5, 10, true⟩, none, 0, 0⟩
        "none" none 1 (fun _ => .throttled (some (.parseable 2)))).events = 2 ∧
    throttleWaits (request ⟨some "T", none, ⟨30, 1, 5, 10, true⟩, none, 0, 0⟩
        "none" none 1 (fun _ => .throttled (some (.parseable 2)))).events = [2, 2] ∧
    (request ⟨some "T", none, ⟨30, 1, 5, 10, true⟩, none, 0, 0⟩
        "none" none 1 (fun _ => .throttled (some (.parseable 2)))).outcome =
      .error .unknownFailure :=
  throttle_consumes_retry_budget ⟨some "T", none, ⟨30, 1, 5, 10, true⟩, none, 0, 0⟩
    "none" none 1 (fun _ => .throttled (some (.parseable 2))) [] 2 2 rfl rfl rfl rfl

/-- Claim C2 (confirmed): a 2xx response whose body fails to decode as
JSON makes the call raise the invalid-JSON `ValueError` after exactly one
transport attempt, with no throttle or backoff sleep — decode failures
are never retried. -/
theorem decode_failure_not_retried (c : ClientState) (auth_type : String)
    (params : Option (List (String × String))) (now : ℚ)
    (oracle : ℕ → TransportResult) (p₁ : List (String × String))
    (hauth : authInject c.api_key c.access_token auth_type
      (params.getD []) = .ok p₁)
    (h0 : oracle 0 = .success none) :
    (request c auth_type params now oracle).outcome =
      .error (.valueError .invalidJson) ∧
    attemptCount (request c auth_type params now oracle).events = 1 ∧
    throttleWaits (request c auth_type params now oracle).events = [] ∧
    backoffWaits (request c auth_type params now oracle).events = [] := by
  rw [request_of_auth_ok c auth_type params now oracle p₁ hauth]
  simp [requestLoop, h0, attemptCount, throttleWaits, backoffWaits]

/-- Witness for C2: a single malformed body fails the call at once. -/
theorem decode_failure_not_retried_witness :
    (request ⟨some "K", some "T", ⟨30, 3, 2, 10, true⟩, none, 0, 0⟩
        "none" none 1 (fun _ => .success none)).outcome =
      .error (.valueError .invalidJson) ∧
    attemptCount (request ⟨some "K", some "T", ⟨30, 3, 2, 10, true⟩, none, 0, 0⟩
        "none" none 1 (fun _ => .success none)).events = 1 ∧
    throttleWaits (request ⟨some "K", some "T", ⟨30, 3, 2, 10, true⟩, none, 0, 0⟩
        "none" none 1 (fun _ => .success none)).events = [] ∧
    backoffWaits (request ⟨some "K", some "T", ⟨30, 3, 2, 10, true⟩, none, 0, 0⟩
        "none" none 1 (fun _ => .success none)).events = [] :=
  decode_failure_not_retried ⟨some "K", some "T", ⟨30, 3, 2, 10, true⟩, none, 0, 0⟩
    "none" none 1 (fun _ => .success none) [] rfl rfl

/-- Claim C4 (confirmed): with `MAX_RETRIES = 2`, `RETRY_DELAY = d`, and
transport failures on the first two attempts followed by a success, the
backoff sleeps are `d` and `2 * d` (`RETRY_DELAY * 2 ^ attempt` with the
attempt index starting at 0), three transport attempts occur, and the
call returns the decoded body. -/
theorem backoff_exponential (c : ClientState) (auth_type : String)
    (params : Option (List (String × String))) (now : ℚ)
    (oracle : ℕ → TransportResult) (p₁ : List (String × String))
    (e₀ e₁ b : ℕ) (d : ℚ)
    (hauth : authInject c.api_key c.access_token auth_type
      (params.getD []) = .ok p₁)
    (hmr : c.settings.MAX_RETRIES = 2) (hd : c.settings.RETRY_DELAY = d)
    (h0 : oracle 0 = .failure e₀) (h1 : oracle 1 = .failure e₁)
    (h2 : oracle 2 = .success (some b)) :
    backoffWaits (request c auth_type params now oracle).events = [d, 2 * d] ∧
    attemptCount (request c auth_type params now oracle).events = 3 ∧
    (request c auth_type params now oracle).outcome = .ok b := by
  rw [request_of_auth_ok c auth_type params now oracle p₁ hauth, hmr]
  simp [requestLoop, h0, h1, h2, hd, attemptCount, backoffWaits, pow_succ, mul_comm]

/-- Witness for C4 at `d = 3`: the backoff sleeps are 3 and 6. -/
theorem backoff_exponential_witness :
    backoffWaits (request ⟨some "K", some "T", ⟨30, 2, 3, 10, true⟩, none, 0, 0⟩
        "none" none 1
        (fun n => if n < 2 then .failure n else .success (some 9))).events =
      [3, 2 * 3] ∧
    attemptCount (request ⟨some "K", some "T", ⟨30, 2, 3, 10, true⟩, none, 0, 0⟩
        "none" none 1
        (fun n => if n < 2 then .failure n else .success (some 9))).events = 3 ∧
    (request ⟨some "K", some "T", ⟨30, 2, 3, 10, true⟩, none, 0, 0⟩
        "none" none 1
        (fun n => if n < 2 then .failure n else .success (some 9))).outcome =
      .ok 9 :=
  backoff_exponential ⟨some "K", some "T", ⟨30, 2, 3, 10, true⟩, none, 0, 0⟩
    "none" none 1 (fun n => if n < 2 then .failure n else .success (some 9)) []
    0 1 9 3 rfl rfl rfl rfl rfl rfl

/-- Claim C5 (confirmed): when every transport attempt raises a transient
transport error, the call performs `MAX_RETRIES + 1` attempts and then
raises the error of the final (most recent) attempt itself — not the
generic fallback. -/
theorem exhaustion_surfaces_last_error (c : ClientState) (auth_type : String)
    (params : Option (List (String × String))) (now : ℚ)
    (oracle : ℕ → TransportResult) (p₁ : List (String × String)) (e : ℕ → ℕ)
    (hauth : authInject c.api_key c.access_token auth_type
      (params.getD []) = .ok p₁)
    (hfail : ∀ k, oracle k = .failure (e k)) :
    (request c auth_type params now oracle).outcome =
      .error (.transportError (e c.settings.MAX_RETRIES)) ∧
    attemptCount (request c auth_type params now oracle).events =
      c.settings.MAX_RETRIES + 1 := by
  have h := requestLoop_all_fail c.settings oracle e hfail c.settings.MAX_RETRIES 0 none
  rw [request_of_auth_ok c auth_type params now oracle p₁ hauth]
  refine ⟨?_, ?_⟩
  · have h1 := h.1
    rw [Nat.zero_add] at h1
    exact h1
  · simpa [attemptCount] using h.2

/-- Witness for C5: two attempts failing with error ids 10 and 11 under
`MAX_RETRIES = 1` surface error id 11 — the most recent one. -/
theorem exhaustion_surfaces_last_error_witness :
    (request ⟨some "K", some "T", ⟨30, 1, 2, 10, true⟩, none, 0, 0⟩
        "none" none 1 (fun n => .failure (n + 10))).outcome =
      .error (.transportError 11) ∧
    attemptCount (request ⟨some "K", some "T", ⟨30, 1, 2, 10, true⟩, none, 0, 0⟩
        "none" none 1 (fun n => .failure (n + 10))).events = 2 :=
  exhaustion_surfaces_last_error
    ⟨some "K", some "T", ⟨30, 1, 2, 10, true⟩, none, 0, 0⟩ "none" none 1
    (fun n => .failure (n + 10)) [] (fun n => n + 10) rfl (fun _ => rfl)

/-- Claim C7 counterexample: a 429 carrying an unparseable `Retry-After`
header makes `float(...)` raise a `ValueError` that propagates — the call
fails after one attempt instead of defaulting the wait to `RETRY_DELAY`,
contradicting "a malformed Retry-After value never causes the call to
fail". -/
theorem malformed_retry_after_fails_cex :
    (request ⟨some "K", some "T", ⟨30, 1, 2, 10, true⟩, none, 0, 0⟩
        "none" none 1 (fun _ => .throttled (some .malformed))).outcome =
      .error (.valueError .floatParse) ∧
    attemptCount (request ⟨some "K", some "T", ⟨30, 1, 2, 10, true⟩, none, 0, 0⟩
        "none" none 1 (fun _ => .throttled (some .malformed))).events = 1 := by
  constructor <;> rfl

/-- Claim C7 (amended): on a 429 the wait is the parsed `Retry-After`
value when the header is present and parseable, and defaults to
`RETRY_DELAY` when the header is absent; but a present, unparseable
header raises a `ValueError` that propagates, failing the call after that
single attempt. -/
theorem retry_after_handling (c : ClientState) (auth_type : String)
    (params : Option (List (String × String))) (now : ℚ)
    (oracle : ℕ → TransportResult) (p₁ : List (String × String)) (q : ℚ)
    (hauth : authInject c.api_key c.access_token auth_type
      (params.getD []) = .ok p₁) :
    (oracle 0 = .throttled none →
      (throttleWaits (request c auth_type params now oracle).events).head? =
        some c.settings.RETRY_DELAY) ∧
    (oracle 0 = .throttled (some (.parseable q)) →
      (throttleWaits (request c auth_type params now oracle).events).head? =
        some q) ∧
    (oracle 0 = .throttled (some .malformed) →
      (request c auth_type params now oracle).outcome =
        .error (.valueError .floatParse) ∧
      attemptCount (request c auth_type params now oracle).events = 1) := by
  rw [request_of_auth_ok c auth_type params now oracle p₁ hauth]
  refine ⟨fun h0 => ?_, fun h0 => ?_, fun h0 => ?_⟩ <;>
    simp [requestLoop, h0, throttleWaits, attemptCount]

/-- Witness for C7 (amended): an absent `Retry-After` header defaults the
wait to `RETRY_DELAY = 2`. -/
theorem retry_after_handling_witness :
    (throttleWaits (request ⟨some "K", some "T", ⟨30, 1, 2, 10, true⟩, none, 0, 0⟩
        "none" none 1 (fun _ => .throttled none)).events).head? = some 2 :=
  (retry_after_handling ⟨some "K", some "T", ⟨30, 1, 2, 10, true⟩, none, 0, 0⟩
    "none" none 1 (fun _ => .throttled none) [] 0 rfl).1 rfl

/-- Claim C8 counterexample: a call that performs three transport
attempts (failures on attempts 0 and 1, success on attempt 2) contains
exactly one `_rate_limit` invocation in its trace — pacing does not run
before every attempt of the dispatch loop. -/
theorem pace_not_before_every_attempt_cex :
    attemptCount (request ⟨some "K", some "T", ⟨30, 2, 3, 10, true⟩, none, 0, 0⟩
        "none" none 1
        (fun n => if n = 0 then .failure 0
                  else if n = 1 then .failure 1 else .success (some 7))).events = 3 ∧
    paceCount (request ⟨some "K", some "T", ⟨30, 2, 3, 10, true⟩, none, 0, 0⟩
        "none" none 1
        (fun n => if n = 0 then .failure 0
                  else if n = 1 then .failure 1 else .success (some 7))).events = 1 := by
  constructor <;> rfl

/-- Claim C8 (amended): `_rate_limit` runs exactly once per call, before
the first transport attempt (it is the first event of every trace on the
authenticated path); the retry loop itself never paces. -/
theorem pace_once_before_first_attempt (c : ClientState) (auth_type : String)
    (params : Option (List (String × String))) (now : ℚ)
    (oracle : ℕ → TransportResult) (p₁ : List (String × String))
    (hauth : authInject c.api_key c.access_token auth_type
      (params.getD []) = .ok p₁) :
    paceCount (request c auth_type params now oracle).events = 1 ∧
    (∃ q, (request c auth_type params now oracle).events.head? =
      some (.pace q)) := by
  rw [request_of_auth_ok c auth_type params now oracle p₁ hauth]
  exact ⟨by simp [paceCount, requestLoop_paceCount], ⟨_, rfl⟩⟩

/-- Witness for C8 (amended) on a two-attempt run. -/
theorem pace_once_before_first_attempt_witness :
    paceCount (request ⟨some "K", some "T", ⟨30, 1, 2, 10, true⟩, none, 0, 0⟩
        "none" none 1
        (fun n => if n = 0 then .failure 0 else .success (some 7))).events = 1 ∧
    (∃ q, (request ⟨some "K", some "T", ⟨30, 1, 2, 10, true⟩, none, 0, 0⟩
        "none" none 1
        (fun n => if n = 0 then .failure 0 else .success (some 7))).events.head? =
      some (.pace q)) :=
  pace_once_before_first_attempt
    ⟨some "K", some "T", ⟨30, 1, 2, 10, true⟩, none, 0, 0⟩ "none" none 1
    (fun n => if n = 0 then .failure 0 else .success (some 7)) [] rfl

end SteamyPy
